import Mathlib

/-!
Verification of the inbox synchronization and notification relay of the
telegram-temp-email-bot repository.

The development shallowly embeds the relevant JavaScript source:

* `EmailService.getInbox` (server variant, lines 145-213): list messages with a
  bearer token, with a one-shot token refresh on a provider 401.
* `EmailService.readMessage` (lines 215-228) and `EmailService.deleteMessage`
  (lines 230-243).
* `startInboxMonitoring` (bot.js lines 286-334): the recurring relay tick over
  all in-memory user sessions.
* `broadcastUpdate` (server variant, lines 75-82): the WebSocket dispatch sink.
* The bare `setInterval` scheduling of the tick (bot.js line 333,
  `TempEmailServer.startAutoRefresh` line 1290).

The external mail provider and the SQL `emails` table are modelled explicitly:
the provider as a record of response functions (an oracle keyed by the request
arguments), the table as a list of rows.  Every externally visible action of
the embedded code (HTTP request, token persistence, Telegram send) is recorded
in an `Event` trace so that ordering and counting properties can be stated.
-/

/-- Outcome of a failed provider HTTP call: a response with a status code
(`error.response` present in the JS), or a network-level failure with no
response. -/
inductive HttpError where
  | status (code : Nat)
  | network
deriving Repr, DecidableEq

/-- A raw message object as returned by the provider under the member
collection key of `GET /messages`. -/
structure RawMsg where
  fromAddress : String
  subject : String
  id : String
  createdAt : String
  attachments : List String
  seen : Bool
deriving Repr, DecidableEq

/-- The message summary produced by the mapping in `getInbox`
(part_000 lines 198-205). -/
structure MsgSummary where
  fromAddr : String
  subject : String
  id : String
  createdAt : String
  hasAttachments : Bool
  seen : Bool
deriving Repr, DecidableEq

/-- The full message detail returned by `GET /messages/id`. -/
structure MsgDetail where
  id : String
  fromAddress : String
  subject : String
  text : String
deriving Repr, DecidableEq

/-- Externally visible actions of the embedded code, in execution order:
provider HTTP calls, the token UPDATE on the session store, and the Telegram
notification send. -/
inductive Event where
  | listMessages (token : String)
  | authenticate (address password : String)
  | persistToken (email token : String)
  | readMessage (token id : String)
  | sendBotMessage (userId : Nat) (messageId : String)
deriving Repr, DecidableEq

/-- One row of the `emails` table: the session store
(columns email, password, token, last_access). -/
structure EmailRow where
  email : String
  password : String
  token : String
  lastAccess : Nat
deriving Repr, DecidableEq

/-- The `emails` table. -/
abbrev Db := List EmailRow

/-- The mail provider, as an oracle: each field gives the provider's response
to one kind of request, keyed by the request arguments.  `authenticate`
models `POST /token`; `none` covers both an HTTP failure and a response with
no `token` field (the code treats both as failure). -/
structure Provider where
  listMessages : String → Except HttpError (List RawMsg)
  authenticate : String → String → Option String
  fetchMessage : String → String → Except HttpError MsgDetail
  deleteMsg : String → String → Except HttpError Unit

/-- Result record of a successful `getInbox`: the mapped messages and the
token used by the final successful request (part_000 line 208). -/
structure InboxOk where
  messages : List MsgSummary
  token : String
deriving Repr, DecidableEq

/-- Result record of a successful `deleteMessage` (part_000 line 238). -/
structure DeleteOk where
  success : Bool
deriving Repr, DecidableEq

/-- An in-memory user session as stored in the `userSessions` map
(bot.js lines 24, 59). -/
structure Session where
  email : String
  token : String
  password : String
deriving Repr, DecidableEq

/-- SELECT password, token, ... FROM emails WHERE email = ? — first matching
row, as the code reads `rows[0]`. -/
def findRow : Db → String → Option EmailRow
  | [], _ => none
  | r :: rest, email => if r.email == email then some r else findRow rest email

/-- UPDATE emails SET token = ?, last_access = NOW() WHERE email = ?
(part_000 lines 183-186). -/
def updateTokenAndAccess : Db → String → String → Nat → Db
  | [], _, _, _ => []
  | r :: rest, email, tok, now =>
    (if r.email == email then { r with token := tok, lastAccess := now } else r)
      :: updateTokenAndAccess rest email tok now

/-- UPDATE emails SET last_access = NOW() WHERE email = ?
(part_000 lines 64-72). -/
def updateLastAccess : Db → String → Nat → Db
  | [], _, _ => []
  | r :: rest, email, now =>
    (if r.email == email then { r with lastAccess := now } else r)
      :: updateLastAccess rest email now

/-- The token column of the row for a given mailbox address. -/
def tokenOf (db : Db) (email : String) : Option String :=
  (findRow db email).map EmailRow.token

/-- The message mapping applied to each raw provider message
(part_000 lines 198-205). -/
def mapMsg (m : RawMsg) : MsgSummary :=
  { fromAddr := m.fromAddress
    subject := m.subject
    id := m.id
    createdAt := m.createdAt
    hasAttachments := !m.attachments.isEmpty
    seen := m.seen }

/-- Embedding of `EmailService.getInbox` (part_000 lines 145-213).
Tries `GET /messages` with the given token.  On a 401 response it reads the
stored password, re-authenticates, persists the new token into the store, and
retries once; any other failure, a missing row, a failed re-authentication or
a failed retry is converted by the outer catch into the single error string.
Returns the result, the updated store, and the event trace. -/
def getInbox (P : Provider) (db : Db) (now : Nat) (token email : String) :
    Except String InboxOk × Db × List Event :=
  match P.listMessages token with
  | .ok raws =>
      (.ok ⟨raws.map mapMsg, token⟩, updateLastAccess db email now,
        [.listMessages token])
  | .error e =>
      if e = .status 401 then
        match findRow db email with
        | none => (.error "Failed to fetch inbox", db, [.listMessages token])
        | some row =>
            match P.authenticate email row.password with
            | none =>
                (.error "Failed to fetch inbox", db,
                  [.listMessages token, .authenticate email row.password])
            | some newTok =>
                match P.listMessages newTok with
                | .ok raws =>
                    (.ok ⟨raws.map mapMsg, newTok⟩,
                      updateLastAccess
                        (updateTokenAndAccess db email newTok now) email now,
                      [.listMessages token, .authenticate email row.password,
                        .persistToken email newTok, .listMessages newTok])
                | .error _ =>
                    (.error "Failed to fetch inbox",
                      updateTokenAndAccess db email newTok now,
                      [.listMessages token, .authenticate email row.password,
                        .persistToken email newTok, .listMessages newTok])
      else (.error "Failed to fetch inbox", db, [.listMessages token])

/-- Embedding of `EmailService.readMessage` (part_000 lines 215-228):
a single authenticated fetch of one message; no refresh, no retry. -/
def readMessage (P : Provider) (db : Db) (now : Nat) (token id email : String) :
    Except String MsgDetail × Db × List Event :=
  match P.fetchMessage token id with
  | .ok d => (.ok d, updateLastAccess db email now, [.readMessage token id])
  | .error _ => (.error "Failed to read message", db, [.readMessage token id])

/-- Embedding of `EmailService.deleteMessage` (part_000 lines 230-243):
a single authenticated DELETE; any provider error is converted into the
failure string by the catch, and last_access is then not updated. -/
def deleteMessage (P : Provider) (db : Db) (now : Nat) (token id email : String) :
    Except String DeleteOk × Db :=
  match P.deleteMsg token id with
  | .ok _ => (.ok ⟨true⟩, updateLastAccess db email now)
  | .error _ => (.error "Failed to delete message", db)

/-- Result of processing one session in a monitoring tick. -/
structure SessionResult where
  session : Session
  db : Db
  events : List Event
deriving Repr, DecidableEq

/-- Embedding of the per-session body of `startInboxMonitoring`
(bot.js lines 292-328).  A session with an empty email or token is skipped.
Otherwise: fetch the inbox, filter to messages with `seen` false, and when
some exist, fetch the details of the first one, send one Telegram
notification for it, and save the session with a refreshed token when
`getInbox` refreshed.  The surrounding try/catch absorbs every failure, so a
failed fetch leaves the session unchanged and produces no notification
(in particular a failed detail fetch also skips the token save, which the
code performs after the send).  `bot.sendMessage` is modelled as succeeding;
its failure is absorbed by the same catch. -/
def processSession (P : Provider) (db : Db) (now : Nat) (userId : Nat)
    (s : Session) : SessionResult :=
  if s.email ≠ "" ∧ s.token ≠ "" then
    match getInbox P db now s.token s.email with
    | (.ok r, db1, evs1) =>
        match r.messages.filter (fun m => !m.seen) with
        | [] => ⟨s, db1, evs1⟩
        | m :: _ =>
            match readMessage P db1 now r.token m.id s.email with
            | (.ok _, db2, evs2) =>
                if r.token ≠ s.token then
                  ⟨{ s with token := r.token }, db2,
                    evs1 ++ evs2 ++ [.sendBotMessage userId m.id]⟩
                else ⟨s, db2, evs1 ++ evs2 ++ [.sendBotMessage userId m.id]⟩
            | (.error _, db2, evs2) => ⟨s, db2, evs1 ++ evs2⟩
    | (.error _, db1, evs1) => ⟨s, db1, evs1⟩
  else ⟨s, db, []⟩

/-- Embedding of one full monitoring tick (bot.js lines 289-333): the
sessions of the `userSessions` map are processed in order, each one by
`processSession`, threading the session store through; per-session failures
are already absorbed inside `processSession`, so the loop always reaches
every session. -/
def monitorTick (P : Provider) (db : Db) (now : Nat) :
    List (Nat × Session) → List (Nat × Session) × Db × List Event
  | [] => ([], db, [])
  | (u, s) :: rest =>
      let r := processSession P db now u s
      let (rest2, db2, evs2) := monitorTick P r.db now rest
      ((u, r.session) :: rest2, db2, r.events ++ evs2)

/-- The sent-notification events of a trace, as (userId, messageId) pairs. -/
def sentIds (evs : List Event) : List (Nat × String) :=
  evs.filterMap fun e =>
    match e with
    | .sendBotMessage u i => some (u, i)
    | _ => none

/-- The message ids whose details were fetched in a trace. -/
def readIds (evs : List Event) : List String :=
  evs.filterMap fun e =>
    match e with
    | .readMessage _ i => some i
    | _ => none

/-- The bearer tokens of the `GET /messages` requests in a trace, in order. -/
def listCalls (evs : List Event) : List String :=
  evs.filterMap fun e =>
    match e with
    | .listMessages t => some t
    | _ => none

/-- The bearer token of the last `GET /messages` request in a trace. -/
def lastListToken (evs : List Event) : Option String :=
  (listCalls evs).getLast?

/-- A WebSocket connection, reduced to its readyState
(CONNECTING 0, OPEN 1, CLOSING 2, CLOSED 3). -/
structure WsConn where
  readyState : Nat
deriving Repr, DecidableEq

/-- WebSocket.OPEN. -/
def wsOPEN : Nat := 1

/-- The `activeConnections` map keyed by user id (part_000 line 34). -/
abbrev ConnMap := List (Nat × WsConn)

/-- Lookup of a user's live connection in the map. -/
def lookupConn (m : ConnMap) (u : Nat) : Option WsConn :=
  (m.find? (fun p => p.1 == u)).map Prod.snd

/-- A dispatch-sink action: one WebSocket send. -/
inductive SinkEvent where
  | wsSend (userId : Nat) (payload : String)
deriving Repr, DecidableEq

/-- Embedding of `broadcastUpdate` (part_000 lines 75-82): send the payload
iff the user has a registered connection whose readyState is OPEN; otherwise
do nothing.  The function is total — no failure value exists — so an
undeliverable event can only be dropped, never raised as an error. -/
def broadcastUpdate (conns : ConnMap) (userId : Nat) (payload : String) :
    List SinkEvent :=
  match lookupConn conns userId with
  | some ws => if ws.readyState = wsOPEN then [.wsSend userId payload] else []
  | none => []

/-- The monitoring interval of `startInboxMonitoring`, in milliseconds
(bot.js line 333). -/
def monitorIntervalMs : Nat := 30000

/-- The default auto-refresh interval of `TempEmailServer.startAutoRefresh`,
in milliseconds (bot.js line 1290). -/
def autoRefreshIntervalMs : Nat := 10000

/-- The active-session window the specification gives as an example
(30 minutes), in milliseconds. -/
def activeWindowMs : Nat := 1800000

/-- Start time of the k-th timer callback under `setInterval` semantics:
the callback fires every `interval` milliseconds whether or not the previous
asynchronous invocation has completed — the code installs no in-flight guard
(bot.js lines 289 and 1264). -/
def tickStart (interval k : Nat) : Nat := k * interval

/-- Completion time of the k-th invocation when invocation k takes
`dur k` milliseconds. -/
def tickEnd (interval : Nat) (dur : Nat → Nat) (k : Nat) : Nat :=
  tickStart interval k + dur k

/-- Invocation k is still outstanding at time t. -/
def outstandingAt (interval : Nat) (dur : Nat → Nat) (k t : Nat) : Prop :=
  tickStart interval k ≤ t ∧ t < tickEnd interval dur k

/-! ### Helper lemmas -/

theorem sentIds_append (a b : List Event) :
    sentIds (a ++ b) = sentIds a ++ sentIds b :=
  List.filterMap_append a b _

theorem readIds_append (a b : List Event) :
    readIds (a ++ b) = readIds a ++ readIds b :=
  List.filterMap_append a b _

theorem listCalls_append (a b : List Event) :
    listCalls (a ++ b) = listCalls a ++ listCalls b :=
  List.filterMap_append a b _

/-- The trace of `getInbox` contains no notification sends. -/
theorem getInbox_sentIds (P : Provider) (db : Db) (now : Nat)
    (token email : String) :
    sentIds (getInbox P db now token email).2.2 = [] := by
  unfold getInbox
  split
  · rfl
  · split
    · split
      · rfl
      · split
        · rfl
        · split <;> rfl
    · rfl

/-- The trace of `getInbox` contains no message-detail fetches. -/
theorem getInbox_readIds (P : Provider) (db : Db) (now : Nat)
    (token email : String) :
    readIds (getInbox P db now token email).2.2 = [] := by
  unfold getInbox
  split
  · rfl
  · split
    · split
      · rfl
      · split
        · rfl
        · split <;> rfl
    · rfl

/-- Every trace of `getInbox` opens with the initial `GET /messages`
request carrying the input token. -/
theorem getInbox_listCalls_head (P : Provider) (db : Db) (now : Nat)
    (token email : String) :
    token ∈ listCalls (getInbox P db now token email).2.2 := by
  unfold getInbox
  split
  · exact List.mem_cons_self _ _
  · split
    · split
      · exact List.mem_cons_self _ _
      · split
        · exact List.mem_cons_self _ _
        · split <;> exact List.mem_cons_self _ _
    · exact List.mem_cons_self _ _

/-- The trace of `readMessage` is exactly the one fetch request. -/
theorem readMessage_events (P : Provider) (db : Db) (now : Nat)
    (token id email : String) :
    (readMessage P db now token id email).2.2 = [.readMessage token id] := by
  unfold readMessage
  split <;> rfl

/-- `findRow` after a token update: the row is found as before, with its
token and last_access replaced. -/
theorem findRow_updateTokenAndAccess (db : Db) (email tok : String) (now : Nat) :
    findRow (updateTokenAndAccess db email tok now) email =
      (findRow db email).map
        (fun r => { r with token := tok, lastAccess := now }) := by
  induction db with
  | nil => rfl
  | cons r rest ih =>
    by_cases h : r.email == email
    · simp [updateTokenAndAccess, findRow, h]
    · simp [updateTokenAndAccess, findRow, h, ih]

/-- `findRow` after a last_access update: the row is found as before, with
only its last_access replaced. -/
theorem findRow_updateLastAccess (db : Db) (email : String) (now : Nat) :
    findRow (updateLastAccess db email now) email =
      (findRow db email).map (fun r => { r with lastAccess := now }) := by
  induction db with
  | nil => rfl
  | cons r rest ih =>
    by_cases h : r.email == email
    · simp [updateLastAccess, findRow, h]
    · simp [updateLastAccess, findRow, h, ih]

/-- Decidable equality for `Except`, so that concrete runs of the embedded
operations can be checked by evaluation. -/
instance {e a : Type} [DecidableEq e] [DecidableEq a] : DecidableEq (Except e a) :=
  fun x y =>
    match x, y with
    | .error u, .error v =>
        if h : u = v then isTrue (congrArg Except.error h)
        else isFalse fun hh => h (Except.error.inj hh)
    | .error _, .ok _ => isFalse fun hh => Except.noConfusion hh
    | .ok _, .error _ => isFalse fun hh => Except.noConfusion hh
    | .ok u, .ok v =>
        if h : u = v then isTrue (congrArg Except.ok h)
        else isFalse fun hh => h (Except.ok.inj hh)

/-! ### Claim C1 — one-shot token refresh -/

/-- Claim C1: when the `GET /messages` call fails with a 401 and the session
store holds credentials for the mailbox that the provider accepts, `getInbox`
makes exactly one `authenticate` call, persists the new token into the store
before the retried `GET /messages` executes (the trace is exactly these four
events in this order, and the store's token column afterwards is the new
token), and retries exactly once; a failure of the retried call propagates as
the fetch error with no further refresh attempt. -/
theorem tokenRefresh_oneShot (P : Provider) (db : Db) (now : Nat)
    (tok email newTok : String) (row : EmailRow)
    (h401 : P.listMessages tok = .error (.status 401))
    (hrow : findRow db email = some row)
    (hauth : P.authenticate email row.password = some newTok) :
    (getInbox P db now tok email).2.2 =
      [.listMessages tok, .authenticate email row.password,
        .persistToken email newTok, .listMessages newTok] ∧
    tokenOf (getInbox P db now tok email).2.1 email = some newTok ∧
    (∀ e, P.listMessages newTok = .error e →
      (getInbox P db now tok email).1 = .error "Failed to fetch inbox") := by
  refine ⟨?_, ?_, ?_⟩
  · cases hr : P.listMessages newTok <;>
      simp [getInbox, h401, hrow, hauth, hr]
  · cases hr : P.listMessages newTok <;>
      simp [getInbox, h401, hrow, hauth, hr, tokenOf,
        findRow_updateLastAccess, findRow_updateTokenAndAccess]
  · intro e he
    simp [getInbox, h401, hrow, hauth, he]

/-- Session-store row used by the concrete refresh run. -/
def rowC1 : EmailRow := ⟨"a1@x.test", "pw1", "old1", 5⟩

/-- Session store used by the concrete refresh run. -/
def dbC1 : Db := [rowC1]

/-- Provider for the concrete refresh run: rejects every token except the
freshly issued one with a 401 and accepts the stored credentials. -/
def pC1 : Provider where
  listMessages := fun t => if t = "new1" then .ok [] else .error (.status 401)
  authenticate := fun a p => if a = "a1@x.test" ∧ p = "pw1" then some "new1" else none
  fetchMessage := fun _ _ => .error .network
  deleteMsg := fun _ _ => .ok ()

/-- Witness for claim C1: a concrete run through the refresh path. -/
theorem tokenRefresh_oneShot_witness :
    pC1.listMessages "old1" = .error (.status 401) ∧
    (getInbox pC1 dbC1 0 "old1" "a1@x.test").2.2 =
      [.listMessages "old1", .authenticate "a1@x.test" "pw1",
        .persistToken "a1@x.test" "new1", .listMessages "new1"] ∧
    tokenOf (getInbox pC1 dbC1 0 "old1" "a1@x.test").2.1 "a1@x.test" =
      some "new1" :=
  ⟨rfl,
    (tokenRefresh_oneShot pC1 dbC1 0 "old1" "a1@x.test" "new1" rowC1
      rfl rfl rfl).1,
    (tokenRefresh_oneShot pC1 dbC1 0 "old1" "a1@x.test" "new1" rowC1
      rfl rfl rfl).2.1⟩

/-! ### Claim C10 — the returned token is the one of the final request -/

/-- Claim C10: a successful `getInbox` returns in its token field exactly the
bearer token of the final (successful) `GET /messages` request: the input
token when the first call succeeded, and the freshly issued token obtained
from the stored credentials when a 401 refresh occurred. -/
theorem getInbox_tokenFinal (P : Provider) (db : Db) (now : Nat)
    (tok email : String) (r : InboxOk) (dbOut : Db) (evs : List Event)
    (h : getInbox P db now tok email = (.ok r, dbOut, evs)) :
    lastListToken evs = some r.token ∧
    (∀ raws, P.listMessages tok = .ok raws → r.token = tok) ∧
    (P.listMessages tok = .error (.status 401) →
      ∃ row, findRow db email = some row ∧
        P.authenticate email row.password = some r.token) := by
  unfold getInbox at h
  split at h
  · next raws heq =>
      simp only [Prod.mk.injEq, Except.ok.injEq] at h
      obtain ⟨hr, _, hevs⟩ := h
      subst hr
      subst hevs
      refine ⟨rfl, fun _ _ => rfl, fun h401 => ?_⟩
      rw [heq] at h401
      exact absurd h401 (by simp)
  · next e heq =>
      split at h
      · next he401 =>
          subst he401
          split at h
          · simp at h
          · next row hrow =>
              split at h
              · simp at h
              · next newTok hauth =>
                  split at h
                  · next raws hretry =>
                      simp only [Prod.mk.injEq, Except.ok.injEq] at h
                      obtain ⟨hr, _, hevs⟩ := h
                      subst hr
                      subst hevs
                      refine ⟨rfl, fun raws2 hok => ?_, fun _ => ⟨row, hrow, hauth⟩⟩
                      rw [heq] at hok
                      exact absurd hok (by simp)
                  · simp at h
      · simp at h

/-- Provider for the concrete no-refresh run of `getInbox`. -/
def pC10 : Provider where
  listMessages := fun t => if t = "t10" then .ok [] else .error .network
  authenticate := fun _ _ => none
  fetchMessage := fun _ _ => .error .network
  deleteMsg := fun _ _ => .ok ()

/-- Witness for claim C10: a concrete successful run without refresh, whose
returned token is the bearer token of its single request. -/
theorem getInbox_tokenFinal_witness :
    lastListToken [Event.listMessages "t10"] =
      some (InboxOk.mk [] "t10").token :=
  (getInbox_tokenFinal pC10 [] 0 "t10" "e10@x.test" ⟨[], "t10"⟩ []
    [.listMessages "t10"] rfl).1

/-! ### The per-session tick: shared case analysis -/

/-- Case analysis of one session's tick processing: either no notification
send and no detail fetch happened at all, or the inbox fetch succeeded with
at least one unseen message, exactly the first unseen message's details were
fetched, and either one notification was sent for exactly that message or
(when the detail fetch failed) none was. -/
theorem processSession_events_cases (P : Provider) (db : Db) (now u : Nat)
    (s : Session) :
    (sentIds (processSession P db now u s).events = [] ∧
      readIds (processSession P db now u s).events = []) ∨
    ∃ r : InboxOk, ∃ m : MsgSummary, ∃ rest : List MsgSummary,
      (getInbox P db now s.token s.email).1 = .ok r ∧
      r.messages.filter (fun x => !x.seen) = m :: rest ∧
      readIds (processSession P db now u s).events = [m.id] ∧
      (sentIds (processSession P db now u s).events = [] ∨
        sentIds (processSession P db now u s).events = [(u, m.id)]) := by
  by_cases hc : s.email ≠ "" ∧ s.token ≠ ""
  · unfold processSession
    rw [if_pos hc]
    split
    · next r db1 evs1 heq =>
        have hs1 : sentIds evs1 = [] := by
          have h0 := getInbox_sentIds P db now s.token s.email
          rw [heq] at h0; exact h0
        have hr1 : readIds evs1 = [] := by
          have h0 := getInbox_readIds P db now s.token s.email
          rw [heq] at h0; exact h0
        have hfst : (getInbox P db now s.token s.email).1 = .ok r := by
          rw [heq]
        split
        · exact Or.inl ⟨hs1, hr1⟩
        · next m rest hfil =>
            split
            · next d db2 evs2 heq2 =>
                have hevs2 : evs2 = [.readMessage r.token m.id] := by
                  have h0 := readMessage_events P db1 now r.token m.id s.email
                  rw [heq2] at h0; exact h0
                split
                · refine Or.inr ⟨r, m, rest, hfst, hfil, ?_, Or.inr ?_⟩
                  · rw [hevs2, readIds_append, readIds_append, hr1]; rfl
                  · rw [hevs2, sentIds_append, sentIds_append, hs1]; rfl
                · refine Or.inr ⟨r, m, rest, hfst, hfil, ?_, Or.inr ?_⟩
                  · rw [hevs2, readIds_append, readIds_append, hr1]; rfl
                  · rw [hevs2, sentIds_append, sentIds_append, hs1]; rfl
            · next e db2 evs2 heq2 =>
                have hevs2 : evs2 = [.readMessage r.token m.id] := by
                  have h0 := readMessage_events P db1 now r.token m.id s.email
                  rw [heq2] at h0; exact h0
                refine Or.inr ⟨r, m, rest, hfst, hfil, ?_, Or.inl ?_⟩
                · rw [hevs2, readIds_append, hr1]; rfl
                · rw [hevs2, sentIds_append, hs1]; rfl
    · next e db1 evs1 heq =>
        refine Or.inl ⟨?_, ?_⟩
        · have h0 := getInbox_sentIds P db now s.token s.email
          rw [heq] at h0; exact h0
        · have h0 := getInbox_readIds P db now s.token s.email
          rw [heq] at h0; exact h0
  · left
    simp only [processSession, if_neg hc]
    exact ⟨rfl, rfl⟩

/-! ### Claim C9 — at most one notification per session per tick -/

/-- Claim C9: on a monitoring tick, each session causes at most one
notification send and at most one message-detail fetch; when a notification
is sent, its message is the first unseen message in the provider's returned
order, and only that message's details were fetched. -/
theorem notify_atMostOne (P : Provider) (db : Db) (now u : Nat) (s : Session) :
    (sentIds (processSession P db now u s).events).length ≤ 1 ∧
    (readIds (processSession P db now u s).events).length ≤ 1 ∧
    ∀ i, (u, i) ∈ sentIds (processSession P db now u s).events →
      ∃ r : InboxOk, ∃ m : MsgSummary,
        (getInbox P db now s.token s.email).1 = .ok r ∧
        (r.messages.filter fun x => !x.seen).head? = some m ∧ i = m.id ∧
        readIds (processSession P db now u s).events = [m.id] := by
  rcases processSession_events_cases P db now u s with
    ⟨hs, hr⟩ | ⟨r, m, rest, h1, h2, h3, h4⟩
  · rw [hs, hr]
    exact ⟨by simp, by simp, fun i hi => absurd hi (by simp)⟩
  · refine ⟨?_, by rw [h3]; simp, fun i hi => ?_⟩
    · rcases h4 with h4 | h4 <;> rw [h4] <;> simp
    · rcases h4 with h4 | h4
      · rw [h4] at hi
        exact absurd hi (by simp)
      · rw [h4] at hi
        simp only [List.mem_singleton, Prod.mk.injEq] at hi
        exact ⟨r, m, h1, by rw [h2]; rfl, hi.2, h3⟩

/-- First unseen message of the C9 run. -/
def rawC9a : RawMsg := ⟨"s@x.test", "one", "m91", "2024", [], false⟩

/-- Second unseen message of the C9 run. -/
def rawC9b : RawMsg := ⟨"s@x.test", "two", "m92", "2024", [], false⟩

/-- Provider for the C9 run: two unseen messages in the listing, details
available only for the first. -/
def pC9 : Provider where
  listMessages := fun t => if t = "t9" then .ok [rawC9a, rawC9b] else .error .network
  authenticate := fun _ _ => none
  fetchMessage := fun t i =>
    if t = "t9" ∧ i = "m91" then .ok ⟨"m91", "s@x.test", "one", "body"⟩
    else .error .network
  deleteMsg := fun _ _ => .ok ()

/-- Session of the C9 run. -/
def sC9 : Session := ⟨"a9@x.test", "t9", "pw9"⟩

/-- Witness for claim C9: in a tick with two unseen messages, the one sent
notification is for the first of them, and only its details were fetched. -/
theorem notify_atMostOne_witness :
    ∃ r : InboxOk, ∃ m : MsgSummary,
      (getInbox pC9 [] 0 sC9.token sC9.email).1 = .ok r ∧
      (r.messages.filter fun x => !x.seen).head? = some m ∧ "m91" = m.id ∧
      readIds (processSession pC9 [] 0 9 sC9).events = [m.id] :=
  (notify_atMostOne pC9 [] 0 9 sC9).2.2 "m91" (by decide)

/-! ### Claim C2 — no duplicate delivery across ticks -/

/-- The message the C2 provider keeps reporting as unseen. -/
def rawC2 : RawMsg := ⟨"s@x.test", "hello", "m2", "2024", [], false⟩

/-- Provider for the C2 runs: the listing always contains message m2 with
seen still false — the code only ever issues GET requests and never marks a
message seen, so nothing prevents the provider from reporting it unseen
again on the next tick. -/
def pC2 : Provider where
  listMessages := fun t => if t = "t2" then .ok [rawC2] else .error .network
  authenticate := fun _ _ => none
  fetchMessage := fun t i =>
    if t = "t2" ∧ i = "m2" then .ok ⟨"m2", "s@x.test", "hello", "body"⟩
    else .error .network
  deleteMsg := fun _ _ => .ok ()

/-- Session of the C2 runs. -/
def sC2 : Session := ⟨"a2@x.test", "t2", "pw2"⟩

/-- Counterexample to claim C2: the code keeps no observed-message state
(there is no lastObservedMessageIds anywhere) and never marks messages seen
at the provider, so when the provider still reports the same message as
unseen on the next tick, two consecutive ticks both deliver a notification
for the same message id m2. -/
theorem notify_duplicate_counterexample :
    (2, "m2") ∈ sentIds (processSession pC2 [] 0 2 sC2).events ∧
    (2, "m2") ∈ sentIds
      (processSession pC2 (processSession pC2 [] 0 2 sC2).db 0 2
        (processSession pC2 [] 0 2 sC2).session).events := by
  decide

/-- Claim C2 (amended): deduplication relies solely on the provider's seen
flag — every message id delivered in a Notification belongs to a message the
provider listed with seen = false in that same tick (a message the provider
reports as seen is never notified); the component keeps no observed-id set
of its own, so a message the provider reports unseen again in a later tick
is re-notified. -/
theorem notify_unseenOnly (P : Provider) (db : Db) (now u : Nat) (s : Session)
    (i : String)
    (hi : (u, i) ∈ sentIds (processSession P db now u s).events) :
    ∃ r : InboxOk, ∃ m : MsgSummary,
      (getInbox P db now s.token s.email).1 = .ok r ∧
      m ∈ r.messages ∧ m.id = i ∧ m.seen = false := by
  rcases processSession_events_cases P db now u s with
    ⟨hs, _⟩ | ⟨r, m, rest, h1, h2, _, h4⟩
  · rw [hs] at hi
    exact absurd hi (by simp)
  · rcases h4 with h4 | h4
    · rw [h4] at hi
      exact absurd hi (by simp)
    · rw [h4] at hi
      simp only [List.mem_singleton, Prod.mk.injEq] at hi
      have hm : m ∈ r.messages.filter (fun x => !x.seen) := by
        rw [h2]; exact List.mem_cons_self _ _
      rw [List.mem_filter] at hm
      exact ⟨r, m, h1, hm.1, hi.2.symm, by simpa using hm.2⟩

/-- Witness for the amended claim C2: the concrete duplicate-delivery run
instantiated at its first tick. -/
theorem notify_unseenOnly_witness :
    ∃ r : InboxOk, ∃ m : MsgSummary,
      (getInbox pC2 [] 0 sC2.token sC2.email).1 = .ok r ∧
      m ∈ r.messages ∧ m.id = "m2" ∧ m.seen = false :=
  notify_unseenOnly pC2 [] 0 2 sC2 "m2" (by decide)

/-! ### Claim C6 — empty inbox is a no-op for the session -/

/-- Claim C6: for a session whose provider inbox is empty, one tick produces
zero Notifications for it and leaves the whole in-memory session — in
particular any notification-deduplication state — unchanged. -/
theorem tick_emptyInbox (P : Provider) (db : Db) (now u : Nat) (s : Session)
    (hempty : P.listMessages s.token = .ok []) :
    (processSession P db now u s).session = s ∧
    sentIds (processSession P db now u s).events = [] := by
  by_cases hc : s.email ≠ "" ∧ s.token ≠ ""
  · simp [processSession, hc, getInbox, hempty, sentIds]
  · simp only [processSession, if_neg hc]
    exact ⟨trivial, rfl⟩

/-- Provider for the C6 run: the inbox is empty for every token. -/
def pC6 : Provider where
  listMessages := fun _ => .ok []
  authenticate := fun _ _ => none
  fetchMessage := fun _ _ => .error .network
  deleteMsg := fun _ _ => .ok ()

/-- Session of the C6 run. -/
def sC6 : Session := ⟨"a6@x.test", "t6", "pw6"⟩

/-- Witness for claim C6: a concrete tick over an empty inbox. -/
theorem tick_emptyInbox_witness :
    (processSession pC6 [] 0 6 sC6).session = sC6 ∧
    sentIds (processSession pC6 [] 0 6 sC6).events = [] :=
  tick_emptyInbox pC6 [] 0 6 sC6 rfl

/-! ### Claim C3 — per-session failure isolation -/

/-- A session whose inbox fetch fails with a network-level transient error
contributes no notification and leaves the session store untouched; the
surrounding try/catch absorbs the failure. -/
theorem processSession_transientFail (P : Provider) (db : Db) (now u : Nat)
    (s : Session) (hfail : P.listMessages s.token = .error .network) :
    (processSession P db now u s).db = db ∧
    sentIds (processSession P db now u s).events = [] := by
  by_cases hc : s.email ≠ "" ∧ s.token ≠ ""
  · simp [processSession, hc, getInbox, hfail, sentIds]
  · simp only [processSession, if_neg hc]
    exact ⟨trivial, rfl⟩

/-- Claim C3: in a tick over two sessions where the first one's fetch fails
with a transient network error, the second session is still processed and
the tick's delivered notifications are exactly those the second session
produces on its own against the same store — the first session's failure
neither aborts the loop nor perturbs the second. -/
theorem tick_failureIsolation (P : Provider) (db : Db) (now uA uB : Nat)
    (A B : Session) (hfail : P.listMessages A.token = .error .network) :
    sentIds (monitorTick P db now [(uA, A), (uB, B)]).2.2 =
      sentIds (processSession P db now uB B).events := by
  obtain ⟨hdb, hsend⟩ := processSession_transientFail P db now uA A hfail
  simp only [monitorTick, hdb]
  rw [sentIds_append, hsend, sentIds_append]
  simp [sentIds]

/-- Session A of the C3 run, whose token the provider rejects with a network
error. -/
def sC3A : Session := ⟨"a3@x.test", "tA3", "pwA"⟩

/-- Session B of the C3 run, which has one unseen message. -/
def sC3B : Session := ⟨"b3@x.test", "tB3", "pwB"⟩

/-- The unseen message of session B in the C3 run. -/
def rawC3 : RawMsg := ⟨"s@x.test", "hi", "m3", "2024", [], false⟩

/-- Provider for the C3 run: session A's fetch fails transiently, session B's
succeeds. -/
def pC3 : Provider where
  listMessages := fun t => if t = "tB3" then .ok [rawC3] else .error .network
  authenticate := fun _ _ => none
  fetchMessage := fun t i =>
    if t = "tB3" ∧ i = "m3" then .ok ⟨"m3", "s@x.test", "hi", "body"⟩
    else .error .network
  deleteMsg := fun _ _ => .ok ()

/-- Witness for claim C3: concretely, with session A failing, session B still
receives its notification for message m3. -/
theorem tick_failureIsolation_witness :
    sentIds (monitorTick pC3 [] 0 [(31, sC3A), (32, sC3B)]).2.2 =
      sentIds (processSession pC3 [] 0 32 sC3B).events ∧
    (32, "m3") ∈ sentIds (processSession pC3 [] 0 32 sC3B).events :=
  ⟨tick_failureIsolation pC3 [] 0 31 32 sC3A sC3B rfl, by decide⟩

/-! ### Claim C4 — no activity-window filter on polling -/

/-- Claim C4 (amended): the monitoring tick applies no activity-window
filter — a session with a nonempty email and token is polled (a
`GET /messages` request is issued with its token) for every store content
and every current time, regardless of the stored last_access. -/
theorem poll_noActivityWindow (P : Provider) (db : Db) (now u : Nat)
    (s : Session) (he : s.email ≠ "") (ht : s.token ≠ "") :
    s.token ∈ listCalls (processSession P db now u s).events := by
  have hmem := getInbox_listCalls_head P db now s.token s.email
  unfold processSession
  rw [if_pos ⟨he, ht⟩]
  split
  · next r db1 evs1 heq =>
      rw [heq] at hmem
      have hmem2 : s.token ∈ listCalls evs1 := hmem
      split
      · exact hmem2
      · split
        · split <;>
            (rw [listCalls_append, listCalls_append];
              exact List.mem_append_left _ (List.mem_append_left _ hmem2))
        · rw [listCalls_append]
          exact List.mem_append_left _ hmem2
  · next e db1 evs1 heq =>
      rw [heq] at hmem
      exact hmem

/-- Stale session-store row of the C4 run: last_access 0, far outside any
activity window at the tick's current time. -/
def rowC4 : EmailRow := ⟨"a4@x.test", "pw4", "t4", 0⟩

/-- Session store of the C4 run. -/
def dbC4 : Db := [rowC4]

/-- Session of the C4 run. -/
def sC4 : Session := ⟨"a4@x.test", "t4", "pw4"⟩

/-- Provider for the C4 run. -/
def pC4 : Provider where
  listMessages := fun _ => .ok []
  authenticate := fun _ _ => none
  fetchMessage := fun _ _ => .error .network
  deleteMsg := fun _ _ => .ok ()

/-- Counterexample to claim C4: a session whose stored last_access lies far
outside the trailing activity window is still polled — the tick issues a
`GET /messages` request for it instead of skipping it. -/
theorem poll_stale_counterexample :
    (findRow dbC4 sC4.email).map EmailRow.lastAccess = some 0 ∧
    activeWindowMs < 1000000000 - 0 ∧
    sC4.token ∈ listCalls (processSession pC4 dbC4 1000000000 4 sC4).events := by
  decide

/-- Witness for the amended claim C4, at the same stale concrete input. -/
theorem poll_noActivityWindow_witness :
    sC4.token ∈ listCalls (processSession pC4 dbC4 1000000000 4 sC4).events :=
  poll_noActivityWindow pC4 dbC4 1000000000 4 sC4 (by decide) (by decide)

/-! ### Claim C5 — no in-flight guard on the polling timer -/

/-- Counterexample to claim C5: under the source's guard-free `setInterval`
scheduling, an invocation that takes one millisecond longer than the
monitoring interval is still outstanding at the moment the next invocation
for the same session starts. -/
theorem poll_overlap_counterexample :
    outstandingAt monitorIntervalMs (fun _ => monitorIntervalMs + 1) 0
      (tickStart monitorIntervalMs 1) :=
  ⟨by decide, by decide⟩

/-- Claim C5 (amended): the code installs no per-session in-flight guard;
timer invocations start at fixed multiples of the interval, so re-entrant
polling of a session is excluded exactly when every invocation completes
within the interval — under that duration bound, no earlier invocation is
still outstanding when a later one starts. -/
theorem poll_noOverlap_ifFast (interval : Nat) (dur : Nat → Nat) (j k : Nat)
    (hdur : ∀ n, dur n ≤ interval) (hjk : j < k) :
    ¬ outstandingAt interval dur j (tickStart interval k) := by
  intro h
  have h1 : tickEnd interval dur j ≤ (j + 1) * interval := by
    unfold tickEnd tickStart
    rw [Nat.succ_mul]
    exact Nat.add_le_add_left (hdur j) _
  have h2 : (j + 1) * interval ≤ k * interval :=
    Nat.mul_le_mul_right _ hjk
  have h3 : tickStart interval k < tickStart interval k :=
    lt_of_lt_of_le h.2 (le_trans h1 h2)
  exact absurd h3 (lt_irrefl _)

/-- Witness for the amended claim C5: invocations of 100 ms never overlap a
later start under the 30 s monitoring interval. -/
theorem poll_noOverlap_ifFast_witness :
    ¬ outstandingAt monitorIntervalMs (fun _ => 100) 0
      (tickStart monitorIntervalMs 1) := by
  have hdur : ∀ n : Nat, (fun _ : Nat => (100 : Nat)) n ≤ monitorIntervalMs := by
    intro n
    show (100 : Nat) ≤ monitorIntervalMs
    decide
  exact poll_noOverlap_ifFast monitorIntervalMs (fun _ => 100) 0 1 hdur
    (by decide)

/-! ### Claim C7 — deletion of an already-deleted id -/

/-- Provider for the C7 run: the DELETE of the (already deleted) message is
answered with a 404. -/
def pC7 : Provider where
  listMessages := fun _ => .error .network
  authenticate := fun _ _ => none
  fetchMessage := fun _ _ => .error .network
  deleteMsg := fun _ _ => .error (.status 404)

/-- Counterexample to claim C7: when the provider answers the DELETE of an
already-deleted id with a 404, `deleteMessage` reports the deletion failure,
not success. -/
theorem delete_notIdempotent_counterexample :
    (deleteMessage pC7 [] 0 "t7" "m7" "a7@x.test").1 =
      .error "Failed to delete message" := by
  decide

/-- Claim C7 (amended): `deleteMessage` reports success exactly when the
provider's DELETE succeeds; any provider error — including the 404 a
provider returns for an already-deleted id — surfaces to the caller as the
deletion failure, and the last-access update is skipped. -/
theorem delete_providerErrorPropagates (P : Provider) (db : Db) (now : Nat)
    (tok id email : String) (e : HttpError)
    (h : P.deleteMsg tok id = .error e) :
    (deleteMessage P db now tok id email).1 =
      .error "Failed to delete message" ∧
    (deleteMessage P db now tok id email).2 = db := by
  simp [deleteMessage, h]

/-- Witness for the amended claim C7, at the concrete 404 answer. -/
theorem delete_providerErrorPropagates_witness :
    (deleteMessage pC7 [] 0 "t7" "m7" "a7@x.test").1 =
      .error "Failed to delete message" ∧
    (deleteMessage pC7 [] 0 "t7" "m7" "a7@x.test").2 = [] :=
  delete_providerErrorPropagates pC7 [] 0 "t7" "m7" "a7@x.test"
    (.status 404) rfl

/-! ### Claim C8 — undeliverable notifications are dropped, not errors -/

/-- Claim C8: an undeliverable notification — the user has no registered
WebSocket connection, or the registered connection is not OPEN — is simply
dropped by the dispatch sink: no send is attempted, and since the sink is a
total function whose only outcome is its send list, nothing is retried and
no error reaches the relay loop. -/
theorem broadcast_undeliverable_dropped (conns : ConnMap) (u : Nat)
    (payload : String)
    (h : match lookupConn conns u with
         | none => True
         | some ws => ws.readyState ≠ wsOPEN) :
    broadcastUpdate conns u payload = [] := by
  unfold broadcastUpdate
  split
  · next ws heq =>
      simp only [heq] at h
      rw [if_neg h]
  · rfl

/-- Connection map of the C8 run: user 8's socket is CLOSED (readyState 3). -/
def connsC8 : ConnMap := [(8, ⟨3⟩)]

/-- Witness for claim C8: a notification for a user whose only registered
connection is closed produces no send. -/
theorem broadcast_undeliverable_dropped_witness :
    broadcastUpdate connsC8 8 "payload8" = [] :=
  broadcast_undeliverable_dropped connsC8 8 "payload8"
    (by show (3 : Nat) ≠ wsOPEN; decide)
